import Mathlib

/-!
ion-sfu: relay session connections and the SFU session registry.

A shallow embedding of `pkg/relay/conn.go` (SessionConn.Read / Write / ID) and of
`pkg/sfu.go` (the session registry, the relay accept loop, the transport entry
points and Close), with the properties of the design document stated over it.

Conventions
* bytes and `uint32` session identifiers are natural numbers; no arithmetic is
  performed on identifiers in the embedded code, so no wrap-around can occur;
* a Go `error` is an `Option Error` (`none` is `nil`);
* pointers to `Session` objects are indices into an allocation-ordered heap;
* calls made on collaborators (the physical connection, the transport
  constructors, `Session.AddTransport`, the logger) are recorded in traces so that
  "is called", "is not called" and "is called with" can be stated.
-/

namespace Relay

/-- Go error values, identified by their message. -/
abbrev Error := String

/-- Header of a relay packet (`relay.Header`). -/
structure Header where
  SessionID : Nat
deriving DecidableEq, Repr

/-- Relay packet (`relay.Packet`): a header and a payload. -/
structure Packet where
  Header : Header
  Payload : List Nat
deriving DecidableEq, Repr

/-- The packet codec used by `conn.go`. The file `relay/packet.go` that declares
`headerLength`, `Packet.Marshal` and `Packet.Unmarshal` is not among the sources, so
the three are parameters of the embedded functions. -/
structure Codec where
  headerLength : Nat
  Marshal : Packet → Except Error (List Nat)
  Unmarshal : List Nat → Except Error Packet

/-- Big-endian encoding of a 32-bit unsigned value in four bytes. -/
def putUint32 (v : Nat) : List Nat :=
  [v / 2 ^ 24 % 256, v / 2 ^ 16 % 256, v / 2 ^ 8 % 256, v % 256]

/-- Big-endian decoding of the first four bytes (missing bytes read as zero). -/
def getUint32 (b : List Nat) : Nat :=
  b.getD 0 0 * 2 ^ 24 + b.getD 1 0 * 2 ^ 16 + b.getD 2 0 * 2 ^ 8 + b.getD 3 0

/-- Modelled from the spec: `relay/packet.go` (headerLength, Packet.Marshal,
Packet.Unmarshal) is missing. Section 4.1: a fixed-length header of `headerLength`
bytes encoding the 32-bit session ID, immediately followed by the payload bytes;
Unmarshal fails with a decode error if the input is shorter than `headerLength`;
Marshal never fails. The width (four bytes) and the byte order (big-endian) are the
choice of this model. -/
def specCodec : Codec where
  headerLength := 4
  Marshal := fun p => .ok (putUint32 p.Header.SessionID ++ p.Payload)
  Unmarshal := fun b =>
    if b.length < 4 then .error "relay header size insufficient"
    else .ok { Header := { SessionID := getUint32 b }, Payload := b.drop 4 }

/-- The physical connection (`net.Conn`), seen from one endpoint.
`written` is the list of byte slices handed to `Write` so far, `incoming` the byte
slices sent by the peer and not yet consumed, and `writeFn` the outcome (count and
error) of a `Write` given the slices written before and the slice to write. -/
structure NetConn where
  written : List (List Nat)
  incoming : List (List Nat)
  writeFn : List (List Nat) → List Nat → Nat × Option Error

/-- `net.Conn.Write`: the slice is handed to the connection, which answers with a
count and an error. -/
def NetConn.Write (c : NetConn) (b : List Nat) : NetConn × Nat × Option Error :=
  ({ c with written := c.written ++ [b] }, c.writeFn c.written b)

/-- A connection that accepts every slice whole. -/
def acceptAll (written incoming : List (List Nat)) : NetConn where
  written := written
  incoming := incoming
  writeFn := fun _ b => (b.length, none)

/-- The far endpoint of a physical connection: what one side has written is what
the other side has incoming. -/
def NetConn.peer (c : NetConn) : NetConn :=
  { written := c.incoming, incoming := c.written, writeFn := c.writeFn }

/-- `relay.SessionConn`: an embedded `net.Conn` and a session id. -/
structure SessionConn where
  Conn : NetConn
  id : Nat

/-- Go's builtin `copy(dst, src)`: overwrites the first `min (len dst) (len src)`
elements of `dst`. -/
def copy (dst src : List Nat) : List Nat :=
  src.take dst.length ++ dst.drop src.length

/-- Outcome of `SessionConn.Read`: the connection afterwards, the caller's buffer
afterwards, the returned count and error, and the packet that was decoded (when
decoding succeeded). -/
structure ReadResult where
  conn : SessionConn
  buf : List Nat
  n : Nat
  err : Option Error
  packet : Option Packet

/-- `func (c *SessionConn) Read(buf []byte) (int, error)`, conn.go 11-24.
`relayBuf` is freshly allocated (zero-filled) and decoded as is. -/
def SessionConn.Read (k : Codec) (c : SessionConn) (buf : List Nat) : ReadResult :=
  let relayBuf := List.replicate (k.headerLength + buf.length) 0
  match k.Unmarshal relayBuf with
  | .error err => { conn := c, buf := buf, n := 0, err := some err, packet := none }
  | .ok p => { conn := c, buf := copy buf p.Payload, n := p.Payload.length, err := none,
               packet := some p }

/-- Outcome of `SessionConn.Write`: the connection afterwards, the returned count
and error. -/
structure WriteResult where
  conn : SessionConn
  n : Nat
  err : Option Error

/-- `func (c *SessionConn) Write(buf []byte) (n int, err error)`, conn.go 26-41. -/
def SessionConn.Write (k : Codec) (c : SessionConn) (buf : List Nat) : WriteResult :=
  let p : Packet := { Header := { SessionID := c.id }, Payload := buf }
  match k.Marshal p with
  | .error err => { conn := c, n := 0, err := some err }
  | .ok bin =>
    let r := c.Conn.Write bin
    { conn := { c with Conn := r.1 }, n := r.2.1, err := r.2.2 }

/-- `func (c *SessionConn) ID() uint32`, conn.go 43-46. -/
def SessionConn.ID (c : SessionConn) : Nat := c.id

/-- A call made on a SessionConn by its user. -/
inductive ConnOp where
  | read (buf : List Nat)
  | write (buf : List Nat)

/-- The SessionConn after one call. -/
def SessionConn.apply (k : Codec) (c : SessionConn) : ConnOp → SessionConn
  | .read buf => (c.Read k buf).conn
  | .write buf => (c.Write k buf).conn

/-- The SessionConn after a sequence of calls. -/
def SessionConn.run (k : Codec) (c : SessionConn) (ops : List ConnOp) : SessionConn :=
  ops.foldl (SessionConn.apply k) c

/-- The payload "hello". -/
def hello : List Nat := [104, 101, 108, 108, 111]

/-- The writing side of the end-to-end scenario: session 1 over a fresh connection
that accepts every write. -/
def client1 : SessionConn := { Conn := acceptAll [] [], id := 1 }

/-- The reading side: the SessionConn bound to `id` on the far endpoint of the
physical connection of `c`. -/
def SessionConn.peer (c : SessionConn) (id : Nat) : SessionConn :=
  { Conn := c.Conn.peer, id := id }

end Relay

namespace Sfu

open Relay (Error SessionConn)

/-- Address of a `Session` object: its index in the heap, in allocation order. -/
abbrev SessionPtr := Nat

/-- The field `sessions map[uint32]*Session`; `none` is the nil a Go map lookup
returns for an absent key. -/
abbrev SessionMap := Nat → Option SessionPtr

/-- Map assignment `m[id] = p`. -/
def SessionMap.insert (m : SessionMap) (id : Nat) (p : SessionPtr) : SessionMap :=
  fun k => if k = id then some p else m k

/-- Builtin `delete(m, id)`. -/
def SessionMap.delete (m : SessionMap) (id : Nat) : SessionMap :=
  fun k => if k = id then none else m k

/-- Modelled from the spec: `relay/server.go` (relay.Server, NewServer, Close,
AcceptSession) is missing. Section 4.6: Close "closes the relay listener". -/
structure Server where
  port : Nat
  closed : Bool
deriving DecidableEq, Repr

/-- `type SFU struct`, sfu.go 54-60 (the lock `mu` is the atomicity of the
functions below that take it). -/
structure SFU where
  stop : Bool
  relay : Option Server
  sessions : SessionMap

/-- Modelled from the spec: `session.go` (Session, NewSession, OnClose,
AddTransport) is missing. Section 4.5: a Session has a numeric ID and a registered
close callback; the callback registered by sfu.go acts on the SFU. -/
structure Session where
  id : Nat
  onCloseHandler : Option (SFU → SFU)

/-- Modelled from the spec: `NewSession(id)` of the missing session.go, a fresh
Session with that ID and no close callback. -/
def NewSession (id : Nat) : Session := { id := id, onCloseHandler := none }

/-- Modelled from the spec: `Session.OnClose(f)` of the missing session.go,
"registers a callback". -/
def Session.OnClose (s : Session) (f : SFU → SFU) : Session :=
  { s with onCloseHandler := some f }

/-- A transport, identified by its ID. -/
structure Transport where
  ID : String
deriving DecidableEq, Repr

/-- Calls made on the collaborators of the registry, in program order. -/
inductive Event where
  /-- The package-level `NewWebRTCTransport(session, offer)` was called. -/
  | webRTCTransport (session : SessionPtr) (offer : String)
  /-- The function `relay.NewClient(sid, addr)` was called. -/
  | newClient (sid : Nat) (addr : String)
  /-- The package-level `NewRelayTransport(session, conn)` was called; the
  connection is recorded by its `ID()`. -/
  | relayTransport (session : SessionPtr) (connID : Nat)
  /-- The method `session.AddTransport(t)` was called. -/
  | addTransport (session : SessionPtr) (t : Transport)
  /-- The function `log.Errorf` was called with this error. -/
  | logError (err : Error)
deriving DecidableEq, Repr

/-- The program state the registry code acts on: the SFU object, the allocated
Session objects and the calls made so far. -/
structure State where
  sfu : SFU
  heap : List Session
  trace : List Event

/-- The collaborators whose sources are missing (webrtctransport.go,
relaytransport.go, relay/client.go). Each constructor answers with a transport or
an error; the answer may depend on everything that happened before (the trace) and
on the arguments. They do not act on the registry. -/
structure Env where
  NewWebRTCTransport : List Event → SessionPtr → String → Except Error Transport
  NewRelayTransport : List Event → SessionPtr → SessionConn → Except Error Transport
  NewClient : Nat → String → SessionConn

/-- `type RelayConfig struct`, sfu.go 26-29. -/
structure RelayConfig where
  Port : Nat

/-- `type Config struct`, sfu.go 36-42, reduced to the part that reaches the SFU
object. -/
structure Config where
  Relay : RelayConfig

/-- `func NewSFU(c Config) *SFU`, sfu.go 62-106: an empty registry, `stop` at its
zero value, and a relay server when a port is configured. -/
def NewSFU (c : Config) : State :=
  { sfu := { stop := false
             relay := if c.Relay.Port ≠ 0 then some { port := c.Relay.Port, closed := false }
                      else none
             sessions := fun _ => none }
    heap := []
    trace := [] }

/-- The closure `func() { s.mu.Lock(); delete(s.sessions, id); s.mu.Unlock() }`
of sfu.go 132-136. -/
def closeCallback (id : Nat) : SFU → SFU :=
  fun s => { s with sessions := s.sessions.delete id }

/-- `func (s *SFU) newSession(id uint32) *Session`, sfu.go 129-142. The Session
is allocated at the next free address. -/
def newSession (st : State) (id : Nat) : State × SessionPtr :=
  let session := (NewSession id).OnClose (closeCallback id)
  let p := st.heap.length
  ({ st with heap := st.heap ++ [session]
             sfu := { st.sfu with sessions := st.sfu.sessions.insert id p } }, p)

/-- `func (s *SFU) getSession(id uint32) *Session`, sfu.go 144-149. -/
def getSession (st : State) (id : Nat) : Option SessionPtr :=
  st.sfu.sessions id

/-- The sequence `session := s.getSession(id); if session == nil { session =
s.newSession(id) }` that opens NewWebRTCTransport, NewRelayTransport and the body
of the accept loop. -/
def getOrNew (st : State) (id : Nat) : State × SessionPtr :=
  match getSession st id with
  | some p => (st, p)
  | none => newSession st id

/-- Appends an event to the trace. -/
def State.emit (st : State) (e : Event) : State :=
  { st with trace := st.trace ++ [e] }

/-- `func (s *SFU) NewWebRTCTransport(sid, offer) (*WebRTCTransport, error)`,
sfu.go 151-167. -/
def NewWebRTCTransport (env : Env) (st : State) (sid : Nat) (offer : String) :
    State × Option Transport × Option Error :=
  let r := getOrNew st sid
  let session := r.2
  let st1 := r.1.emit (.webRTCTransport session offer)
  match env.NewWebRTCTransport r.1.trace session offer with
  | .error err => (st1, none, some err)
  | .ok t => (st1.emit (.addTransport session t), some t, none)

/-- `func (s *SFU) NewRelayTransport(sid, addr) (*RelayTransport, error)`,
sfu.go 169-185. -/
def NewRelayTransport (env : Env) (st : State) (sid : Nat) (addr : String) :
    State × Option Transport × Option Error :=
  let r := getOrNew st sid
  let session := r.2
  let st1 := r.1.emit (.newClient sid addr)
  let conn := env.NewClient sid addr
  let st2 := st1.emit (.relayTransport session conn.ID)
  match env.NewRelayTransport st1.trace session conn with
  | .error err => (st2, none, some err)
  | .ok t => (st2, some t, none)

/-- One pass through the body of the loop of `acceptRelay` after the stop check,
sfu.go 114-125, for the connection `conn` returned by `s.relay.AcceptSession()`. -/
def acceptRelayIter (env : Env) (st : State) (conn : SessionConn) : State :=
  let sessionID := conn.ID
  let r := getOrNew st sessionID
  let session := r.2
  let st1 := r.1.emit (.relayTransport session conn.ID)
  match env.NewRelayTransport r.1.trace session conn with
  | .error err => st1.emit (.logError err)
  | .ok _ => st1

/-- `func (s *SFU) acceptRelay()`, sfu.go 108-127, run against the connections
that the successive calls of `AcceptSession` return. When these are exhausted
`AcceptSession` blocks and the loop makes no further step. -/
def acceptRelay (env : Env) : State → List SessionConn → State
  | st, [] => st
  | st, conn :: rest =>
    if st.sfu.stop then st
    else acceptRelay env (acceptRelayIter env st conn) rest

/-- `func (s *SFU) Close()`, sfu.go 187-190: only `s.relay.Close()`. When no
relay server was configured the receiver of that call is nil; what happens then is
decided by the missing relay.Server.Close, and the state is left as it is. -/
def Close (st : State) : State :=
  { st with sfu := { st.sfu with relay := st.sfu.relay.map fun r => { r with closed := true } } }

/-- The Session at address `p` runs its registered close callback (the Session
side of `OnClose`, section 4.5). -/
def invokeOnClose (st : State) (p : SessionPtr) : State :=
  match st.heap.get? p with
  | some s =>
    match s.onCloseHandler with
    | some f => { st with sfu := f st.sfu }
    | none => st
  | none => st

/-- The connection ids of the RelayTransport constructions recorded in a trace. -/
def relayCalls : List Event → List Nat
  | [] => []
  | .relayTransport _ cid :: es => cid :: relayCalls es
  | _ :: es => relayCalls es

/-- A caller of the get-or-create sequence, between its two critical sections. -/
inductive Caller where
  /-- Has not called `getSession` yet. -/
  | start (sid : Nat)
  /-- The call `getSession` returned nil and `newSession` has not run yet. -/
  | absent (sid : Nat)
  /-- Holds its Session. -/
  | holds (sid : Nat) (session : SessionPtr)
deriving DecidableEq, Repr

/-- One scheduling step of a caller. Each step is one critical section of
`s.mu`: the read-locked lookup of `getSession`, or `newSession` (whose allocation
touches no shared state before the locked map assignment). -/
def Caller.step (st : State) : Caller → State × Caller
  | .start sid =>
    match getSession st sid with
    | some p => (st, .holds sid p)
    | none => (st, .absent sid)
  | .absent sid => let r := newSession st sid; (r.1, .holds sid r.2)
  | .holds sid p => (st, .holds sid p)

/-- Runs the callers under a schedule: each entry names the caller that takes the
next step. -/
def runSchedule : State × List Caller → List Nat → State × List Caller
  | sc, [] => sc
  | (st, cs), i :: sched =>
    match cs.get? i with
    | some c => let r := c.step st; runSchedule (r.1, cs.set i r.2) sched
    | none => runSchedule (st, cs) sched

/-- The Session an event was called with or on, if any. -/
def Event.session? : Event → Option SessionPtr
  | .webRTCTransport p _ => some p
  | .relayTransport p _ => some p
  | .addTransport p _ => some p
  | .newClient _ _ => none
  | .logError _ => none

/-- Whether an event is a call of `AddTransport`. -/
def Event.isAddTransport : Event → Bool
  | .addTransport _ _ => true
  | _ => false

/-- The events recorded between the state `st` and the later state `st1`. -/
def eventsSince (st st1 : State) : List Event :=
  st1.trace.drop st.trace.length

/-- The Sessions used by the collaborator calls made between `st` and `st1`. -/
def sessionsUsed (st st1 : State) : List SessionPtr :=
  (eventsSince st st1).filterMap Event.session?

/-- Between `st` and `st1` the Session at `p` was used, and no other. -/
def UsedOnly (st st1 : State) (p : SessionPtr) : Prop :=
  sessionsUsed st st1 ≠ [] ∧ ∀ q ∈ sessionsUsed st st1, q = p

/-- The step from `st` to `st1` reused the registered Session `p`: the registry map
and the set of allocated Sessions are as before, and `p` is the Session used. -/
def Reused (st st1 : State) (p : SessionPtr) : Prop :=
  st1.sfu.sessions = st.sfu.sessions ∧ st1.heap = st.heap ∧ UsedOnly st st1 p

/-- The step from `st` to `st1` created exactly one Session, the one `newSession`
builds for `sid`, at the next free address, registered it under `sid`, used it, and
left the entries of all other ids as they were. -/
def Created (st st1 : State) (sid : Nat) : Prop :=
  st1.heap = st.heap ++ [(NewSession sid).OnClose (closeCallback sid)] ∧
  st1.sfu.sessions sid = some st.heap.length ∧
  (∀ k, k ≠ sid → st1.sfu.sessions k = st.sfu.sessions k) ∧
  UsedOnly st st1 st.heap.length

/-- A configuration with a relay port. -/
def config0 : Config := { Relay := { Port := 5558 } }

/-- Collaborators whose constructions all succeed. -/
def envOk : Env where
  NewWebRTCTransport := fun _ _ _ => .ok { ID := "webrtc" }
  NewRelayTransport := fun _ _ _ => .ok { ID := "relay" }
  NewClient := fun sid _ => { Conn := Relay.acceptAll [] [], id := sid }

/-- Collaborators whose constructions all fail. -/
def envFail : Env where
  NewWebRTCTransport := fun _ _ _ => .error "construction failed"
  NewRelayTransport := fun _ _ _ => .error "construction failed"
  NewClient := fun sid _ => { Conn := Relay.acceptAll [] [], id := sid }

/-- Collaborators for which the RelayTransport construction fails exactly for
connections of session 1. -/
def envFlaky : Env where
  NewWebRTCTransport := fun _ _ _ => .ok { ID := "webrtc" }
  NewRelayTransport := fun _ _ c =>
    if c.ID = 1 then .error "relay construction failed" else .ok { ID := "relay" }
  NewClient := fun sid _ => { Conn := Relay.acceptAll [] [], id := sid }

/-- An accepted relay connection of session `id`. -/
def connOf (id : Nat) : SessionConn := { Conn := Relay.acceptAll [] [], id := id }

/-- A fresh SFU in which session 1 has been created. -/
def oneSession : State := (newSession (NewSFU config0) 1).1

/-- The state two racing callers for session 1 leave behind: both found the
registry empty, both ran `newSession(1)`; the Session at address 0 was created
first, the one at address 1 second and is the one registered. -/
def raceState : State := (newSession (newSession (NewSFU config0) 1).1 1).1

end Sfu

namespace Relay

/-- What `Read` returns does not depend on the connection: neither on the bytes the
peer has sent nor on the session id the SessionConn is bound to. -/
theorem Read_ignores_conn (k : Codec) (c c' : SessionConn) (buf : List Nat) :
    (c.Read k buf).buf = (c'.Read k buf).buf ∧ (c.Read k buf).n = (c'.Read k buf).n ∧
    (c.Read k buf).err = (c'.Read k buf).err ∧
    (c.Read k buf).packet = (c'.Read k buf).packet := by
  rcases h : k.Unmarshal (List.replicate (k.headerLength + buf.length) 0) with e | p <;>
    simp [SessionConn.Read, h]

/-- `Read` leaves the SessionConn as it was. -/
theorem Read_conn (k : Codec) (c : SessionConn) (buf : List Nat) :
    (c.Read k buf).conn = c := by
  rcases h : k.Unmarshal (List.replicate (k.headerLength + buf.length) 0) with e | p <;>
    simp [SessionConn.Read, h]

/-- `Write` leaves the session id as it was. -/
theorem Write_id (k : Codec) (c : SessionConn) (buf : List Nat) :
    (c.Write k buf).conn.id = c.id := by
  rcases h : k.Marshal { Header := { SessionID := c.id }, Payload := buf } with e | bin <;>
    simp [SessionConn.Write, h]

/-- A call leaves the session id as it was. -/
theorem apply_id (k : Codec) (c : SessionConn) (op : ConnOp) :
    (c.apply k op).id = c.id := by
  cases op with
  | read buf => simp [SessionConn.apply, Read_conn]
  | write buf => simp [SessionConn.apply, Write_id]

/-- A sequence of calls leaves the session id as it was. -/
theorem run_id (k : Codec) (ops : List ConnOp) :
    ∀ c : SessionConn, (c.run k ops).id = c.id := by
  induction ops with
  | nil => intro c; rfl
  | cons op ops ih =>
    intro c
    have h := ih (c.apply k op)
    simp only [SessionConn.run, List.foldl_cons] at h ⊢
    rw [h, apply_id]

/-- The zero-filled buffer decodes, under the modelled codec, to the packet of
session 0 with an all-zero payload as long as the caller's buffer. -/
theorem specCodec_Unmarshal_zero (n : Nat) :
    specCodec.Unmarshal (List.replicate (specCodec.headerLength + n) 0)
      = .ok { Header := { SessionID := 0 }, Payload := List.replicate n 0 } := by
  have h4 : List.replicate (4 + n) 0 = 0 :: 0 :: 0 :: 0 :: List.replicate n 0 := by
    rw [List.replicate_add]; rfl
  simp [specCodec, h4, getUint32]

/-- Under the modelled codec every Read succeeds, reports as many bytes as the
buffer holds and fills the buffer with zeros. -/
theorem Read_specCodec (c : SessionConn) (buf : List Nat) :
    (c.Read specCodec buf).err = none ∧ (c.Read specCodec buf).n = buf.length ∧
    (c.Read specCodec buf).buf = List.replicate buf.length 0 := by
  have h := specCodec_Unmarshal_zero buf.length
  refine ⟨?_, ?_, ?_⟩
  · simp [SessionConn.Read, h]
  · simp [SessionConn.Read, h]
  · simp [SessionConn.Read, h, copy]

/-- C1 (code at the failing input): session 1 writes "hello" over a connection
that accepts it whole, so the marshalled packet is what the peer endpoint has
incoming; the Read on the peer SessionConn bound to session 1, with a buffer of
five bytes, returns count 5 and no error but leaves five zero bytes in the buffer,
not "hello". The same holds whatever was written: Read never consults the
connection. -/
theorem C1_read_after_write_returns_zeros :
    (client1.Write specCodec hello).err = none ∧
    ((client1.Write specCodec hello).conn.peer 1).Conn.incoming = [[0, 0, 0, 1] ++ hello] ∧
    (((client1.Write specCodec hello).conn.peer 1).Read specCodec [9, 9, 9, 9, 9]).err = none ∧
    (((client1.Write specCodec hello).conn.peer 1).Read specCodec [9, 9, 9, 9, 9]).n = 5 ∧
    (((client1.Write specCodec hello).conn.peer 1).Read specCodec [9, 9, 9, 9, 9]).buf
      = [0, 0, 0, 0, 0] ∧
    (((client1.Write specCodec hello).conn.peer 1).Read specCodec [9, 9, 9, 9, 9]).buf.take 5
      ≠ hello ∧
    (∀ (k : Codec) (payload : List Nat) (buf : List Nat),
      (((client1.Write k payload).conn.peer 1).Read k buf).buf
        = (((client1.Write k hello).conn.peer 1).Read k buf).buf) := by
  refine ⟨by decide, by decide, by decide, by decide, by decide, by decide, ?_⟩
  intro k payload buf
  exact (Read_ignores_conn k _ _ buf).1

/-- C3 (code at the failing input): over a connection that accepts the whole
marshalled packet, Write returns the number of wire bytes, `headerLength +
len(buf)`, with a nil error; for session 1 and "hello" that is 9, not 5. -/
theorem C3_write_returns_wire_bytes (i : Nat) (written incoming : List (List Nat))
    (buf : List Nat) :
    (SessionConn.Write specCodec { Conn := acceptAll written incoming, id := i } buf).n
      = specCodec.headerLength + buf.length ∧
    (SessionConn.Write specCodec { Conn := acceptAll written incoming, id := i } buf).err
      = none ∧
    (client1.Write specCodec hello).n = 9 ∧
    (client1.Write specCodec hello).n ≠ hello.length := by
  refine ⟨?_, ?_, by decide, by decide⟩
  · simp [SessionConn.Write, specCodec, NetConn.Write, acceptAll, putUint32]
    omega
  · simp [SessionConn.Write, specCodec, NetConn.Write, acceptAll]

/-- Write hands the count and the error of the underlying write back unchanged,
whatever they are. -/
theorem Write_passes_through (k : Codec) (c : SessionConn) (buf bin : List Nat)
    (hm : k.Marshal { Header := { SessionID := c.id }, Payload := buf } = .ok bin) :
    ((c.Write k buf).n, (c.Write k buf).err) = c.Conn.writeFn c.Conn.written bin := by
  simp [SessionConn.Write, hm, NetConn.Write]

/-- C4 (as stated) fails: the Read on the SessionConn of session 1, with a buffer
of five bytes, returns without error, and the packet whose payload it copied into
the buffer carries session 0 in its header, not the session of the SessionConn. -/
theorem C4_read_delivers_foreign_packet :
    (client1.peer 1).ID = 1 ∧
    ((client1.peer 1).Read specCodec [9, 9, 9, 9, 9]).err = none ∧
    ((client1.peer 1).Read specCodec [9, 9, 9, 9, 9]).packet
      = some { Header := { SessionID := 0 }, Payload := [0, 0, 0, 0, 0] } ∧
    ((client1.peer 1).Read specCodec [9, 9, 9, 9, 9]).buf = [0, 0, 0, 0, 0] ∧
    ((client1.peer 1).Read specCodec [9, 9, 9, 9, 9]).packet.map (fun p => p.Header.SessionID)
      ≠ some (client1.peer 1).ID := by
  refine ⟨rfl, by decide, by decide, by decide, by decide⟩

/-- C4 (as amended): Read does not demultiplex. Over one physical connection, the
SessionConn bound to session `i` and the SessionConn bound to session `j` get the
same count, the same error, the same bytes in the buffer and the same decoded
packet from a Read; the header of the packet is not compared with the session id,
and the id each SessionConn reports stays its own. -/
theorem C4_read_does_not_filter (k : Codec) (conn : NetConn) (i j : Nat) (buf : List Nat) :
    (SessionConn.Read k { Conn := conn, id := i } buf).n
      = (SessionConn.Read k { Conn := conn, id := j } buf).n ∧
    (SessionConn.Read k { Conn := conn, id := i } buf).err
      = (SessionConn.Read k { Conn := conn, id := j } buf).err ∧
    (SessionConn.Read k { Conn := conn, id := i } buf).buf
      = (SessionConn.Read k { Conn := conn, id := j } buf).buf ∧
    (SessionConn.Read k { Conn := conn, id := i } buf).packet
      = (SessionConn.Read k { Conn := conn, id := j } buf).packet ∧
    (SessionConn.Read k { Conn := conn, id := i } buf).conn.ID = i ∧
    (SessionConn.Read k { Conn := conn, id := j } buf).conn.ID = j := by
  have h := Read_ignores_conn k { Conn := conn, id := i } { Conn := conn, id := j } buf
  refine ⟨h.2.1, h.2.2.1, h.1, h.2.2.2, ?_, ?_⟩
  · rw [Read_conn]; rfl
  · rw [Read_conn]; rfl

/-- C9: a SessionConn bound to session `i` reports `i` from ID() before and after
any sequence of Read and Write calls, and a Write(buf) makes exactly one underlying
write, whose argument is the marshalled form of the packet with session `i` and
payload `buf`. -/
theorem C9_id_bound_and_single_write (k : Codec) (c : SessionConn) (i : Nat)
    (hi : c.ID = i) (ops : List ConnOp) (buf bin : List Nat)
    (hm : k.Marshal { Header := { SessionID := i }, Payload := buf } = .ok bin) :
    (c.run k ops).ID = i ∧
    ((c.run k ops).Write k buf).conn.Conn.written = (c.run k ops).Conn.written ++ [bin] ∧
    ((c.run k ops).Write k buf).conn.ID = i := by
  have hid : (c.run k ops).id = i := by rw [run_id]; exact hi
  refine ⟨hid, ?_, ?_⟩
  · simp [SessionConn.Write, hid, hm, NetConn.Write]
  · show ((c.run k ops).Write k buf).conn.id = i
    rw [Write_id]; exact hid

/-- C9 at session 1: ID() is 1 after a read and a write, and writing "hello" then
hands exactly the marshalled packet to the connection. -/
theorem C9_id_bound_and_single_write_witness :
    client1.ID = 1 ∧
    specCodec.Marshal { Header := { SessionID := 1 }, Payload := hello }
      = .ok ([0, 0, 0, 1] ++ hello) ∧
    (client1.run specCodec [.read [0, 0], .write [7]]).ID = 1 ∧
    ((client1.run specCodec [.read [0, 0], .write [7]]).Write specCodec hello).conn.Conn.written
      = (client1.run specCodec [.read [0, 0], .write [7]]).Conn.written
          ++ [[0, 0, 0, 1] ++ hello] ∧
    ((client1.run specCodec [.read [0, 0], .write [7]]).Write specCodec hello).conn.ID = 1 :=
  ⟨rfl, rfl, C9_id_bound_and_single_write specCodec client1 1 rfl
    [.read [0, 0], .write [7]] hello ([0, 0, 0, 1] ++ hello) rfl⟩

end Relay

namespace Sfu

open Relay (Error SessionConn)

/-- The events since `st` of a state whose trace extends that of `st`. -/
theorem eventsSince_append (st st1 : State) (new : List Event)
    (h : st1.trace = st.trace ++ new) : eventsSince st st1 = new := by
  simp [eventsSince, h]

/-- When the id is registered, the get-or-create sequence returns the registered
Session and the state as it was. -/
theorem getOrNew_some (st : State) (sid : Nat) (p : SessionPtr)
    (h : getSession st sid = some p) : getOrNew st sid = (st, p) := by
  simp [getOrNew, h]

/-- When the id is not registered, the get-or-create sequence is `newSession`. -/
theorem getOrNew_none (st : State) (sid : Nat)
    (h : getSession st sid = none) : getOrNew st sid = newSession st sid := by
  simp [getOrNew, h]

/-- The WebRTC entry point reuses a registered Session. -/
theorem NewWebRTCTransport_reuses (env : Env) (st : State) (sid : Nat) (offer : String)
    (p : SessionPtr) (h : getSession st sid = some p) :
    Reused st (NewWebRTCTransport env st sid offer).1 p := by
  unfold Reused UsedOnly sessionsUsed
  rcases hc : env.NewWebRTCTransport st.trace p offer with e | t
  · have ht : (NewWebRTCTransport env st sid offer).1
        = st.emit (.webRTCTransport p offer) := by
      simp [NewWebRTCTransport, getOrNew_some st sid p h, hc]
    rw [ht]
    have he := eventsSince_append st (st.emit (.webRTCTransport p offer))
      [.webRTCTransport p offer] rfl
    rw [he]
    simp [State.emit, Event.session?]
  · have ht : (NewWebRTCTransport env st sid offer).1
        = (st.emit (.webRTCTransport p offer)).emit (.addTransport p t) := by
      simp [NewWebRTCTransport, getOrNew_some st sid p h, hc]
    rw [ht]
    have he := eventsSince_append st
      ((st.emit (.webRTCTransport p offer)).emit (.addTransport p t))
      [.webRTCTransport p offer, .addTransport p t] (by simp [State.emit])
    rw [he]
    simp [State.emit, Event.session?]

/-- The relay entry point reuses a registered Session. -/
theorem NewRelayTransport_reuses (env : Env) (st : State) (sid : Nat) (addr : String)
    (p : SessionPtr) (h : getSession st sid = some p) :
    Reused st (NewRelayTransport env st sid addr).1 p := by
  unfold Reused UsedOnly sessionsUsed
  have ht : (NewRelayTransport env st sid addr).1
      = (st.emit (.newClient sid addr)).emit (.relayTransport p (env.NewClient sid addr).ID) := by
    rcases hc : env.NewRelayTransport (st.trace ++ [.newClient sid addr]) p
        (env.NewClient sid addr) with e | t <;>
      simp [NewRelayTransport, getOrNew_some st sid p h, hc, State.emit]
  rw [ht]
  have he := eventsSince_append st
    ((st.emit (.newClient sid addr)).emit (.relayTransport p (env.NewClient sid addr).ID))
    [.newClient sid addr, .relayTransport p (env.NewClient sid addr).ID] (by simp [State.emit])
  rw [he]
  simp [State.emit, Event.session?]

/-- One pass of the accept loop reuses a registered Session. -/
theorem acceptRelayIter_reuses (env : Env) (st : State) (conn : SessionConn)
    (p : SessionPtr) (h : getSession st conn.ID = some p) :
    Reused st (acceptRelayIter env st conn) p := by
  unfold Reused UsedOnly sessionsUsed
  rcases hc : env.NewRelayTransport st.trace p conn with e | t
  · have ht : acceptRelayIter env st conn
        = (st.emit (.relayTransport p conn.ID)).emit (.logError e) := by
      simp [acceptRelayIter, getOrNew_some st conn.ID p h, hc]
    rw [ht]
    have he := eventsSince_append st
      ((st.emit (.relayTransport p conn.ID)).emit (.logError e))
      [.relayTransport p conn.ID, .logError e] (by simp [State.emit])
    rw [he]
    simp [State.emit, Event.session?]
  · have ht : acceptRelayIter env st conn = st.emit (.relayTransport p conn.ID) := by
      simp [acceptRelayIter, getOrNew_some st conn.ID p h, hc]
    rw [ht]
    have he := eventsSince_append st (st.emit (.relayTransport p conn.ID))
      [.relayTransport p conn.ID] rfl
    rw [he]
    simp [State.emit, Event.session?]

/-- The WebRTC entry point creates and registers one Session when the id is not
registered. -/
theorem NewWebRTCTransport_creates (env : Env) (st : State) (sid : Nat) (offer : String)
    (h : getSession st sid = none) :
    Created st (NewWebRTCTransport env st sid offer).1 sid := by
  unfold Created UsedOnly sessionsUsed
  rcases hc : env.NewWebRTCTransport st.trace st.heap.length offer with e | t
  · have ht : (NewWebRTCTransport env st sid offer).1
        = (newSession st sid).1.emit (.webRTCTransport st.heap.length offer) := by
      simp [NewWebRTCTransport, getOrNew_none st sid h, newSession, hc]
    rw [ht]
    have he := eventsSince_append st
      ((newSession st sid).1.emit (.webRTCTransport st.heap.length offer))
      [.webRTCTransport st.heap.length offer] rfl
    rw [he]
    simp [State.emit, Event.session?, newSession, SessionMap.insert]
    intro k hk; simp [hk]
  · have ht : (NewWebRTCTransport env st sid offer).1
        = ((newSession st sid).1.emit (.webRTCTransport st.heap.length offer)).emit
            (.addTransport st.heap.length t) := by
      simp [NewWebRTCTransport, getOrNew_none st sid h, newSession, hc]
    rw [ht]
    have he := eventsSince_append st
      (((newSession st sid).1.emit (.webRTCTransport st.heap.length offer)).emit
        (.addTransport st.heap.length t))
      [.webRTCTransport st.heap.length offer, .addTransport st.heap.length t]
      (by simp [State.emit, newSession])
    rw [he]
    simp [State.emit, Event.session?, newSession, SessionMap.insert]
    intro k hk; simp [hk]

/-- The relay entry point creates and registers one Session when the id is not
registered. -/
theorem NewRelayTransport_creates (env : Env) (st : State) (sid : Nat) (addr : String)
    (h : getSession st sid = none) :
    Created st (NewRelayTransport env st sid addr).1 sid := by
  unfold Created UsedOnly sessionsUsed
  have ht : (NewRelayTransport env st sid addr).1
      = ((newSession st sid).1.emit (.newClient sid addr)).emit
          (.relayTransport st.heap.length (env.NewClient sid addr).ID) := by
    rcases hc : env.NewRelayTransport (st.trace ++ [.newClient sid addr]) st.heap.length
        (env.NewClient sid addr) with e | t <;>
      simp [NewRelayTransport, getOrNew_none st sid h, newSession, hc, State.emit]
  rw [ht]
  have he := eventsSince_append st
    (((newSession st sid).1.emit (.newClient sid addr)).emit
      (.relayTransport st.heap.length (env.NewClient sid addr).ID))
    [.newClient sid addr, .relayTransport st.heap.length (env.NewClient sid addr).ID]
    (by simp [State.emit, newSession])
  rw [he]
  simp [State.emit, Event.session?, newSession, SessionMap.insert]
  intro k hk; simp [hk]

/-- One pass of the accept loop creates and registers one Session when the id of
the connection is not registered. -/
theorem acceptRelayIter_creates (env : Env) (st : State) (conn : SessionConn)
    (h : getSession st conn.ID = none) :
    Created st (acceptRelayIter env st conn) conn.ID := by
  unfold Created UsedOnly sessionsUsed
  rcases hc : env.NewRelayTransport st.trace st.heap.length conn with e | t
  · have ht : acceptRelayIter env st conn
        = ((newSession st conn.ID).1.emit (.relayTransport st.heap.length conn.ID)).emit
            (.logError e) := by
      simp [acceptRelayIter, getOrNew_none st conn.ID h, newSession, hc]
    rw [ht]
    have he := eventsSince_append st
      (((newSession st conn.ID).1.emit (.relayTransport st.heap.length conn.ID)).emit
        (.logError e))
      [.relayTransport st.heap.length conn.ID, .logError e]
      (by simp [State.emit, newSession])
    rw [he]
    simp [State.emit, Event.session?, newSession, SessionMap.insert]
    intro k hk; simp [hk]
  · have ht : acceptRelayIter env st conn
        = (newSession st conn.ID).1.emit (.relayTransport st.heap.length conn.ID) := by
      simp [acceptRelayIter, getOrNew_none st conn.ID h, newSession, hc]
    rw [ht]
    have he := eventsSince_append st
      ((newSession st conn.ID).1.emit (.relayTransport st.heap.length conn.ID))
      [.relayTransport st.heap.length conn.ID] rfl
    rw [he]
    simp [State.emit, Event.session?, newSession, SessionMap.insert]
    intro k hk; simp [hk]

/-- C5: if a Session is registered under the id, then NewWebRTCTransport,
NewRelayTransport and one pass of the accept loop each use that Session and leave
the registry map (and the set of allocated Sessions) unchanged; if none is
registered, each creates exactly one Session, registers it under the id, uses it,
and leaves the entries of all other ids unchanged. -/
theorem C5_get_or_create (env : Env) (st : State) (sid : Nat) (offer addr : String)
    (conn : SessionConn) (hconn : conn.ID = sid) :
    (∀ p, getSession st sid = some p →
      Reused st (NewWebRTCTransport env st sid offer).1 p ∧
      Reused st (NewRelayTransport env st sid addr).1 p ∧
      Reused st (acceptRelayIter env st conn) p) ∧
    (getSession st sid = none →
      Created st (NewWebRTCTransport env st sid offer).1 sid ∧
      Created st (NewRelayTransport env st sid addr).1 sid ∧
      Created st (acceptRelayIter env st conn) sid) := by
  subst hconn
  exact ⟨fun p h => ⟨NewWebRTCTransport_reuses env st _ offer p h,
      NewRelayTransport_reuses env st _ addr p h, acceptRelayIter_reuses env st conn p h⟩,
    fun h => ⟨NewWebRTCTransport_creates env st _ offer h,
      NewRelayTransport_creates env st _ addr h, acceptRelayIter_creates env st conn h⟩⟩

/-- C5 at session 1: with the Session at address 0 registered the three operations
reuse it, and on a fresh SFU each creates it. -/
theorem C5_get_or_create_witness :
    (connOf 1).ID = 1 ∧ getSession oneSession 1 = some 0 ∧
    getSession (NewSFU config0) 1 = none ∧
    (Reused oneSession (NewWebRTCTransport envOk oneSession 1 "offer").1 0 ∧
      Reused oneSession (NewRelayTransport envOk oneSession 1 "localhost:5558").1 0 ∧
      Reused oneSession (acceptRelayIter envOk oneSession (connOf 1)) 0) ∧
    (Created (NewSFU config0) (NewWebRTCTransport envOk (NewSFU config0) 1 "offer").1 1 ∧
      Created (NewSFU config0)
        (NewRelayTransport envOk (NewSFU config0) 1 "localhost:5558").1 1 ∧
      Created (NewSFU config0) (acceptRelayIter envOk (NewSFU config0) (connOf 1)) 1) :=
  ⟨rfl, rfl, rfl,
    (C5_get_or_create envOk oneSession 1 "offer" "localhost:5558" (connOf 1) rfl).1 0 rfl,
    (C5_get_or_create envOk (NewSFU config0) 1 "offer" "localhost:5558" (connOf 1) rfl).2 rfl⟩

/-- C10: when no Session is registered under `sid` and the transport constructor
fails, NewWebRTCTransport and NewRelayTransport return a nil transport with the
constructor's error unchanged, make no AddTransport call, and leave the Session they
created registered under `sid`: the registry is not restored to what it was. -/
theorem C10_no_rollback (env : Env) (st : State) (sid : Nat) (offer addr : String)
    (err : Error) (hnone : getSession st sid = none) :
    (env.NewWebRTCTransport st.trace st.heap.length offer = .error err →
      (NewWebRTCTransport env st sid offer).2 = (none, some err) ∧
      (∀ e ∈ eventsSince st (NewWebRTCTransport env st sid offer).1,
        e.isAddTransport = false) ∧
      (NewWebRTCTransport env st sid offer).1.sfu.sessions sid = some st.heap.length ∧
      (NewWebRTCTransport env st sid offer).1.heap
        = st.heap ++ [(NewSession sid).OnClose (closeCallback sid)] ∧
      (NewWebRTCTransport env st sid offer).1.sfu.sessions ≠ st.sfu.sessions) ∧
    (env.NewRelayTransport (st.trace ++ [.newClient sid addr]) st.heap.length
        (env.NewClient sid addr) = .error err →
      (NewRelayTransport env st sid addr).2 = (none, some err) ∧
      (∀ e ∈ eventsSince st (NewRelayTransport env st sid addr).1,
        e.isAddTransport = false) ∧
      (NewRelayTransport env st sid addr).1.sfu.sessions sid = some st.heap.length ∧
      (NewRelayTransport env st sid addr).1.heap
        = st.heap ++ [(NewSession sid).OnClose (closeCallback sid)] ∧
      (NewRelayTransport env st sid addr).1.sfu.sessions ≠ st.sfu.sessions) := by
  have hne : ∀ m : SessionMap, m sid = some st.heap.length → m ≠ st.sfu.sessions := by
    intro m hm heq
    rw [heq] at hm
    have h2 : st.sfu.sessions sid = none := hnone
    rw [h2] at hm
    cases hm
  constructor
  · intro hc
    have hcr := NewWebRTCTransport_creates env st sid offer hnone
    have ht : NewWebRTCTransport env st sid offer
        = ((newSession st sid).1.emit (.webRTCTransport st.heap.length offer),
            none, some err) := by
      simp [NewWebRTCTransport, getOrNew_none st sid hnone, newSession, hc]
    refine ⟨by rw [ht], ?_, hcr.2.1, hcr.1, hne _ hcr.2.1⟩
    rw [ht]
    have he := eventsSince_append st
      ((newSession st sid).1.emit (.webRTCTransport st.heap.length offer))
      [.webRTCTransport st.heap.length offer] rfl
    simp only [he]
    intro e hmem
    simp at hmem
    subst hmem
    rfl
  · intro hc
    have hcr := NewRelayTransport_creates env st sid addr hnone
    have ht : NewRelayTransport env st sid addr
        = (((newSession st sid).1.emit (.newClient sid addr)).emit
            (.relayTransport st.heap.length (env.NewClient sid addr).ID),
            none, some err) := by
      simp [NewRelayTransport, getOrNew_none st sid hnone, newSession, hc, State.emit]
    refine ⟨by rw [ht], ?_, hcr.2.1, hcr.1, hne _ hcr.2.1⟩
    rw [ht]
    have he := eventsSince_append st
      (((newSession st sid).1.emit (.newClient sid addr)).emit
        (.relayTransport st.heap.length (env.NewClient sid addr).ID))
      [.newClient sid addr, .relayTransport st.heap.length (env.NewClient sid addr).ID]
      (by simp [State.emit, newSession])
    simp only [he]
    intro e hmem
    simp at hmem
    rcases hmem with hmem | hmem <;> subst hmem <;> rfl

/-- C10 on a fresh SFU with failing constructors, for session 1. -/
theorem C10_no_rollback_witness :
    getSession (NewSFU config0) 1 = none ∧
    envFail.NewWebRTCTransport (NewSFU config0).trace (NewSFU config0).heap.length "offer"
      = .error "construction failed" ∧
    envFail.NewRelayTransport ((NewSFU config0).trace ++ [.newClient 1 "localhost:5558"])
      (NewSFU config0).heap.length (envFail.NewClient 1 "localhost:5558")
      = .error "construction failed" ∧
    ((NewWebRTCTransport envFail (NewSFU config0) 1 "offer").2
        = (none, some "construction failed") ∧
      (NewWebRTCTransport envFail (NewSFU config0) 1 "offer").1.sfu.sessions 1 = some 0 ∧
      (NewWebRTCTransport envFail (NewSFU config0) 1 "offer").1.sfu.sessions
        ≠ (NewSFU config0).sfu.sessions) ∧
    ((NewRelayTransport envFail (NewSFU config0) 1 "localhost:5558").2
        = (none, some "construction failed") ∧
      (NewRelayTransport envFail (NewSFU config0) 1 "localhost:5558").1.sfu.sessions 1
        = some 0 ∧
      (NewRelayTransport envFail (NewSFU config0) 1 "localhost:5558").1.sfu.sessions
        ≠ (NewSFU config0).sfu.sessions) :=
  have h := C10_no_rollback envFail (NewSFU config0) 1 "offer" "localhost:5558"
    "construction failed" rfl
  ⟨rfl, rfl, rfl, ⟨(h.1 rfl).1, (h.1 rfl).2.2.1, (h.1 rfl).2.2.2.2⟩,
    ⟨(h.2 rfl).1, (h.2 rfl).2.2.1, (h.2 rfl).2.2.2.2⟩⟩

/-- The connection ids of the constructions in a concatenated trace. -/
theorem relayCalls_append (a b : List Event) :
    relayCalls (a ++ b) = relayCalls a ++ relayCalls b := by
  induction a with
  | nil => rfl
  | cons e es ih => cases e <;> simp [relayCalls, ih]

/-- One pass of the accept loop: the stop flag is untouched, registered Sessions
stay registered, exactly one RelayTransport construction is recorded, for the
connection at hand and with the Session registered under its id afterwards. -/
theorem acceptRelayIter_step (env : Env) (st : State) (conn : SessionConn) :
    (acceptRelayIter env st conn).sfu.stop = st.sfu.stop ∧
    (∀ k q, st.sfu.sessions k = some q →
      (acceptRelayIter env st conn).sfu.sessions k = some q) ∧
    ∃ p new, (acceptRelayIter env st conn).trace = st.trace ++ new ∧
      relayCalls new = [conn.ID] ∧
      (acceptRelayIter env st conn).sfu.sessions conn.ID = some p ∧
      Event.relayTransport p conn.ID ∈ new := by
  rcases hg : getSession st conn.ID with _ | p
  · rcases hc : env.NewRelayTransport st.trace st.heap.length conn with e | t
    · have ht : acceptRelayIter env st conn
          = ((newSession st conn.ID).1.emit (.relayTransport st.heap.length conn.ID)).emit
              (.logError e) := by
        simp [acceptRelayIter, getOrNew_none st conn.ID hg, newSession, hc]
      rw [ht]
      refine ⟨rfl, ?_, st.heap.length,
        [.relayTransport st.heap.length conn.ID, .logError e], ?_, ?_, ?_, ?_⟩
      · intro k q hk
        by_cases hkc : k = conn.ID
        · subst hkc
          have h2 : st.sfu.sessions conn.ID = none := hg
          rw [h2] at hk; cases hk
        · simp [State.emit, newSession, SessionMap.insert, hkc, hk]
      · simp [State.emit, newSession]
      · simp [relayCalls]
      · simp [State.emit, newSession, SessionMap.insert]
      · simp
    · have ht : acceptRelayIter env st conn
          = (newSession st conn.ID).1.emit (.relayTransport st.heap.length conn.ID) := by
        simp [acceptRelayIter, getOrNew_none st conn.ID hg, newSession, hc]
      rw [ht]
      refine ⟨rfl, ?_, st.heap.length, [.relayTransport st.heap.length conn.ID], ?_, ?_, ?_, ?_⟩
      · intro k q hk
        by_cases hkc : k = conn.ID
        · subst hkc
          have h2 : st.sfu.sessions conn.ID = none := hg
          rw [h2] at hk; cases hk
        · simp [State.emit, newSession, SessionMap.insert, hkc, hk]
      · simp [State.emit, newSession]
      · simp [relayCalls]
      · simp [State.emit, newSession, SessionMap.insert]
      · simp
  · rcases hc : env.NewRelayTransport st.trace p conn with e | t
    · have ht : acceptRelayIter env st conn
          = (st.emit (.relayTransport p conn.ID)).emit (.logError e) := by
        simp [acceptRelayIter, getOrNew_some st conn.ID p hg, hc]
      rw [ht]
      exact ⟨rfl, fun k q hk => hk, p, [.relayTransport p conn.ID, .logError e],
        by simp [State.emit], by simp [relayCalls], hg, by simp⟩
    · have ht : acceptRelayIter env st conn = st.emit (.relayTransport p conn.ID) := by
        simp [acceptRelayIter, getOrNew_some st conn.ID p hg, hc]
      rw [ht]
      exact ⟨rfl, fun k q hk => hk, p, [.relayTransport p conn.ID],
        by simp [State.emit], by simp [relayCalls], hg, by simp⟩

/-- The accept loop over a sequence of connections, from a state whose stop flag
is not set: the stop flag stays unset, registered Sessions stay registered, and the
constructions recorded are those of the connections, in order, each with the
Session registered under its id at the end. -/
theorem acceptRelay_run (env : Env) (conns : List SessionConn) :
    ∀ st : State, st.sfu.stop = false →
      (acceptRelay env st conns).sfu.stop = false ∧
      (∀ k q, st.sfu.sessions k = some q →
        (acceptRelay env st conns).sfu.sessions k = some q) ∧
      ∃ new, (acceptRelay env st conns).trace = st.trace ++ new ∧
        relayCalls new = conns.map SessionConn.ID ∧
        ∀ c ∈ conns, ∃ p, (acceptRelay env st conns).sfu.sessions c.ID = some p ∧
          Event.relayTransport p c.ID ∈ new := by
  induction conns with
  | nil =>
    intro st hs
    exact ⟨hs, fun k q hk => hk, [], by simp [acceptRelay], rfl, by simp⟩
  | cons c cs ih =>
    intro st hs
    obtain ⟨h1, h2, p, new1, h3, h4, h5, h6⟩ := acceptRelayIter_step env st c
    have hs1 : (acceptRelayIter env st c).sfu.stop = false := by rw [h1]; exact hs
    obtain ⟨i1, i2, new2, i3, i4, i5⟩ := ih (acceptRelayIter env st c) hs1
    have hrun : acceptRelay env st (c :: cs) = acceptRelay env (acceptRelayIter env st c) cs := by
      simp [acceptRelay, hs]
    rw [hrun]
    refine ⟨i1, fun k q hk => i2 k q (h2 k q hk), new1 ++ new2, ?_, ?_, ?_⟩
    · rw [i3, h3, List.append_assoc]
    · rw [relayCalls_append, h4, i4]; rfl
    · intro c' hc'
      rcases List.mem_cons.mp hc' with heq | hmem
      · subst heq
        exact ⟨p, i2 _ _ h5, List.mem_append_left _ h6⟩
      · obtain ⟨q, hq1, hq2⟩ := i5 c' hmem
        exact ⟨q, hq1, List.mem_append_right _ hq2⟩

/-- C7: for every finite sequence of accepted relay connections and every
behaviour of the RelayTransport constructor, the accept loop (its stop flag not
set) makes one construction per connection, in the order of the sequence, whether
or not earlier constructions failed; afterwards a Session is registered under the
id of each connection and is the one its construction was given. -/
theorem C7_accept_loop_survives_failures (env : Env) (st : State)
    (conns : List SessionConn) (hstop : st.sfu.stop = false) :
    ∃ new, (acceptRelay env st conns).trace = st.trace ++ new ∧
      relayCalls new = conns.map SessionConn.ID ∧
      ∀ c ∈ conns, ∃ p, (acceptRelay env st conns).sfu.sessions c.ID = some p ∧
        Event.relayTransport p c.ID ∈ new :=
  (acceptRelay_run env conns st hstop).2.2

/-- C7 on a fresh SFU: the construction for the first connection (session 1)
fails, and the connections of sessions 2 and 1 after it are still processed. -/
theorem C7_accept_loop_survives_failures_witness :
    (NewSFU config0).sfu.stop = false ∧
    envFlaky.NewRelayTransport [] 0 (connOf 1) = .error "relay construction failed" ∧
    ∃ new, (acceptRelay envFlaky (NewSFU config0) [connOf 1, connOf 2, connOf 1]).trace
        = (NewSFU config0).trace ++ new ∧
      relayCalls new = [connOf 1, connOf 2, connOf 1].map SessionConn.ID ∧
      ∀ c ∈ [connOf 1, connOf 2, connOf 1],
        ∃ p, (acceptRelay envFlaky (NewSFU config0)
            [connOf 1, connOf 2, connOf 1]).sfu.sessions c.ID = some p ∧
          Event.relayTransport p c.ID ∈ new :=
  ⟨rfl, rfl, C7_accept_loop_survives_failures envFlaky (NewSFU config0)
    [connOf 1, connOf 2, connOf 1] rfl⟩

/-- C8 (code at the failing input): Close changes nothing but the relay server;
the stop flag keeps the value it had. On an SFU built by NewSFU and then closed the
flag is still unset, so the stop check of the accept loop does not break and a
connection returned by AcceptSession is processed like any other. -/
theorem C8_close_leaves_stop_unset (st : State) (env : Env) (conn : SessionConn) :
    (Close st).sfu.stop = st.sfu.stop ∧
    (Close st).sfu.sessions = st.sfu.sessions ∧
    (Close (NewSFU config0)).sfu.relay = some { port := 5558, closed := true } ∧
    (Close (NewSFU config0)).sfu.stop = false ∧
    acceptRelay env (Close (NewSFU config0)) [conn]
      = acceptRelayIter env (Close (NewSFU config0)) conn ∧
    relayCalls (acceptRelay env (Close (NewSFU config0)) [conn]).trace = [conn.ID] := by
  have hrun : acceptRelay env (Close (NewSFU config0)) [conn]
      = acceptRelayIter env (Close (NewSFU config0)) conn := by
    simp [acceptRelay, Close, NewSFU]
  refine ⟨rfl, rfl, rfl, rfl, hrun, ?_⟩
  obtain ⟨_, _, p, new, h3, h4, _, _⟩ := acceptRelayIter_step env (Close (NewSFU config0)) conn
  rw [hrun, h3, relayCalls_append, h4]
  rfl

/-- The Session `newSession` allocates sits at the address it returns. -/
theorem newSession_heap (st : State) (id : Nat) :
    (newSession st id).1.heap.get? (newSession st id).2
      = some ((NewSession id).OnClose (closeCallback id)) := by
  simp [newSession]

/-- Running the close callback registered by `newSession(id)` is `delete` of the
entry under `id`. -/
theorem invokeOnClose_newSession (st st2 : State) (id : Nat)
    (hS : st2.heap.get? (newSession st id).2
      = (newSession st id).1.heap.get? (newSession st id).2) :
    invokeOnClose st2 (newSession st id).2
      = { st2 with sfu := { st2.sfu with sessions := st2.sfu.sessions.delete id } } := by
  rw [newSession_heap] at hS
  unfold invokeOnClose
  rw [hS]
  simp [Session.OnClose, closeCallback]

/-- C6 (as amended): running the close callback that `newSession(id)` registered
on its Session S removes the registry entry under `id` and leaves the entry of every
other id as it was. Hence, when S is registered under no id but `id`, the registry
afterwards is without S; and when the registry maps `id` to S or to nothing, every
Session other than S that was registered still is. -/
theorem C6_close_callback_deletes_by_id (st st2 : State) (id : Nat)
    (hS : st2.heap.get? (newSession st id).2
      = (newSession st id).1.heap.get? (newSession st id).2) :
    (invokeOnClose st2 (newSession st id).2).sfu.sessions id = none ∧
    (∀ k, k ≠ id →
      (invokeOnClose st2 (newSession st id).2).sfu.sessions k = st2.sfu.sessions k) ∧
    ((∀ k, st2.sfu.sessions k = some (newSession st id).2 → k = id) →
      ∀ k, (invokeOnClose st2 (newSession st id).2).sfu.sessions k
        ≠ some (newSession st id).2) ∧
    ((st2.sfu.sessions id = none ∨ st2.sfu.sessions id = some (newSession st id).2) →
      ∀ k q, q ≠ (newSession st id).2 → st2.sfu.sessions k = some q →
        (invokeOnClose st2 (newSession st id).2).sfu.sessions k = some q) := by
  rw [invokeOnClose_newSession st st2 id hS]
  refine ⟨by simp [SessionMap.delete], ?_, ?_, ?_⟩
  · intro k hk
    simp [SessionMap.delete, hk]
  · intro honly k
    by_cases hk : k = id
    · simp [SessionMap.delete, hk]
    · simp only [SessionMap.delete, hk, if_false]
      intro hreg
      exact hk (honly k hreg)
  · intro hid k q hq hreg
    by_cases hk : k = id
    · subst hk
      rcases hid with hnone | hsome
      · rw [hnone] at hreg; cases hreg
      · rw [hsome] at hreg
        exact absurd (Option.some.inj hreg).symm hq
    · simp [SessionMap.delete, hk, hreg]

/-- C6 (as amended) on a fresh SFU in which session 1 was created and session 2
after it: closing the Session of session 1 removes it and keeps that of session
2. -/
theorem C6_close_callback_deletes_by_id_witness :
    (newSession oneSession 2).1.heap.get? (newSession (NewSFU config0) 1).2
      = (newSession (NewSFU config0) 1).1.heap.get? (newSession (NewSFU config0) 1).2 ∧
    (∀ k, (newSession oneSession 2).1.sfu.sessions k = some (newSession (NewSFU config0) 1).2
      → k = 1) ∧
    (newSession oneSession 2).1.sfu.sessions 1 = some (newSession (NewSFU config0) 1).2 ∧
    (invokeOnClose (newSession oneSession 2).1 (newSession (NewSFU config0) 1).2).sfu.sessions 1
      = none ∧
    (∀ k, (invokeOnClose (newSession oneSession 2).1
        (newSession (NewSFU config0) 1).2).sfu.sessions k
      ≠ some (newSession (NewSFU config0) 1).2) ∧
    (invokeOnClose (newSession oneSession 2).1 (newSession (NewSFU config0) 1).2).sfu.sessions 2
      = some 1 :=
  have honly : ∀ k, (newSession oneSession 2).1.sfu.sessions k
      = some (newSession (NewSFU config0) 1).2 → k = 1 := by
    intro k hk
    by_cases h2 : k = 2
    · subst h2; exact absurd hk (by decide)
    · by_cases h1 : k = 1
      · exact h1
      · simp [newSession, oneSession, NewSFU, SessionMap.insert, h1, h2] at hk
  have h := C6_close_callback_deletes_by_id (NewSFU config0) (newSession oneSession 2).1 1 rfl
  ⟨rfl, honly, rfl, h.1, h.2.2.1 honly, h.2.2.2 (Or.inr rfl) 2 1 (by decide) rfl⟩

/-- C6 (as stated) fails: in the state two racing callers leave behind, the
Session at address 0 was created by `newSession(1)` and the registry maps id 1 to
the different Session at address 1; running the close callback of the former evicts
the latter. -/
theorem C6_evicts_other_session :
    (newSession (NewSFU config0) 1).2 = 0 ∧
    raceState.heap.get? 0 = (newSession (NewSFU config0) 1).1.heap.get? 0 ∧
    raceState.sfu.sessions 1 = some 1 ∧
    (invokeOnClose raceState 0).sfu.sessions 1 = none ∧
    ¬ (∀ k q, q ≠ 0 → raceState.sfu.sessions k = some q →
        (invokeOnClose raceState 0).sfu.sessions k = some q) := by
  refine ⟨rfl, rfl, rfl, rfl, ?_⟩
  intro h
  have h1 := h 1 1 (by decide) rfl
  exact absurd h1 (by decide)

/-- C2 (code at the failing input): two callers of the get-or-create sequence for
session 1 on a fresh SFU, scheduled so that both run `getSession` before either runs
`newSession`. Two Sessions are created, the callers hold different Sessions, and
only the second is registered. -/
theorem C2_race_creates_two_sessions :
    (runSchedule (NewSFU config0, [.start 1, .start 1]) [0, 1, 0, 1]).2
      = [.holds 1 0, .holds 1 1] ∧
    (runSchedule (NewSFU config0, [.start 1, .start 1]) [0, 1, 0, 1]).1.heap.length = 2 ∧
    (runSchedule (NewSFU config0, [.start 1, .start 1]) [0, 1, 0, 1]).1.sfu.sessions 1
      = some 1 ∧
    (runSchedule (NewSFU config0, [.start 1, .start 1]) [0, 0, 1, 1]).2
      = [.holds 1 0, .holds 1 0] := by
  refine ⟨by decide, by decide, by decide, by decide⟩

end Sfu
